import Mathlib

/-! # Newsphere weather and news dashboard

A shallow embedding of `server.js` (the Express server: OAuth verify callbacks,
auth gate, proxy endpoints, logout, error middleware, port retry) and of
`public/app.js` (unit toggle, weather rendering, news card rendering), with the
properties of the specification stated and proved over it.

Conventions.
* A handler is a pure function from its inputs (request, environment, the
  outcome of every external call it makes) to the response it sends, together
  with the list of upstream calls it issued.
* Calls to the outside world (upstream HTTP APIs, the OAuth provider, the
  session store) are inputs: an oracle or an explicit outcome value.
* JavaScript numbers that the claims are about are exact rationals; `Math.round`
  is `⌊x + 1/2⌋`.
-/

namespace Newsphere

/-! ## HTTP vocabulary -/

/-- JSON values, as produced by `res.json` and relayed from the upstream APIs. -/
inductive Json where
  | null
  | bool (b : Bool)
  | num (q : ℚ)
  | str (s : String)
  | arr (items : List Json)
  | obj (fields : List (String × Json))

/-- What a handler sends: `res.status(s).json(b)`, `res.status(s).send(t)`,
`res.redirect(url)` or `res.sendFile(name)` with a root directory. -/
inductive Response where
  | json (status : Nat) (body : Json)
  | send (status : Nat) (text : String)
  | redirect (location : String)
  | sendFile (file root : String)

/-- The HTTP status of a response (`res.redirect` sends 302, `res.sendFile` 200). -/
def Response.status : Response → Nat
  | .json status _ => status
  | .send status _ => status
  | .redirect _ => 302
  | .sendFile _ _ => 200

/-- The part of an Express request the API routes read: the value of
`req.isAuthenticated()` and the path parameter (`req.params.city`,
`req.params.category`). -/
structure Request where
  authenticated : Bool
  param : String

/-- The environment variables read by the handlers (`process.env`). -/
structure Env where
  WEATHER_API_KEY : Option String
  NEWS_API_KEY : Option String
  NODE_ENV : Option String

/-- An outbound `axios.get`: the URL and the query parameters. -/
structure UpstreamCall where
  url : String
  params : List (String × Option String)

/-- Why an upstream call was rejected. -/
inductive UpstreamError where
  | cityNotFound
  | quotaExceeded
  | network
  | other (message : String)

/-- The outside world seen by `axios.get`: a fulfilled promise carries
`response.data`, a rejected one an error. -/
abbrev Upstream := UpstreamCall → Except UpstreamError Json

/-- The observable result of running a route: the response sent and the
upstream calls made on the way. -/
structure Handled where
  response : Response
  upstreamCalls : List UpstreamCall

/-- What a middleware does with a request: hand over with `next()` or answer. -/
inductive Gate where
  | next
  | respond (r : Response)

/-! ## Auth gate and proxy endpoints (`server.js` 227-324) -/

/-- The JSON object with the single field `error: msg`. -/
def errorBody (msg : String) : Json :=
  .obj [("error", .str msg)]

/-- `isAuthenticated` middleware, `server.js` 228-233. -/
def isAuthenticated (req : Request) : Gate :=
  if req.authenticated then
    .next
  else
    .respond (.json 401 (errorBody "Not authenticated"))

/-- The call made by the weather handler, `server.js` 298-304. -/
def weatherCall (env : Env) (city : String) : UpstreamCall :=
  { url := "https://api.openweathermap.org/data/2.5/weather"
    params := [("q", some city), ("appid", env.WEATHER_API_KEY), ("units", some "metric")] }

/-- The call made by the news handler, `server.js` 313-319. -/
def newsCall (env : Env) (category : String) : UpstreamCall :=
  { url := "https://newsapi.org/v2/top-headlines"
    params := [("country", some "us"), ("category", some category), ("apiKey", env.NEWS_API_KEY)] }

/-- Handler of `GET /api/weather/:city`, `server.js` 296-309 (`res.json` sends
status 200). -/
def weatherHandler (env : Env) (upstream : Upstream) (req : Request) : Handled :=
  let call := weatherCall env req.param
  match upstream call with
  | .ok data => { response := .json 200 data, upstreamCalls := [call] }
  | .error _ =>
    { response := .json 500 (errorBody "Failed to fetch weather data"), upstreamCalls := [call] }

/-- Handler of `GET /api/news/:category`, `server.js` 311-324. -/
def newsHandler (env : Env) (upstream : Upstream) (req : Request) : Handled :=
  let call := newsCall env req.param
  match upstream call with
  | .ok data => { response := .json 200 data, upstreamCalls := [call] }
  | .error _ =>
    { response := .json 500 (errorBody "Failed to fetch news data"), upstreamCalls := [call] }

/-- Express runs `app.get(path, gate, handler)` as: the gate first, the handler
only if the gate called `next()`. -/
def guarded (gate : Request → Gate) (handler : Request → Handled) (req : Request) : Handled :=
  match gate req with
  | .next => handler req
  | .respond r => { response := r, upstreamCalls := [] }

/-- Route `GET /api/weather/:city`. -/
def apiWeather (env : Env) (upstream : Upstream) : Request → Handled :=
  guarded isAuthenticated (weatherHandler env upstream)

/-- Route `GET /api/news/:category`. -/
def apiNews (env : Env) (upstream : Upstream) : Request → Handled :=
  guarded isAuthenticated (newsHandler env upstream)

/-! ## User store and OAuth verify callbacks (`server.js` 160-225) -/

/-- A document of the `User` collection: the Mongo `_id` and the five schema
fields (absent fields are `none`). -/
structure User where
  id : Nat
  googleId : Option String
  githubId : Option String
  email : Option String
  name : Option String
  avatar : Option String
deriving DecidableEq, Repr

/-- The provider profile handed to the verify callback: `profile.id`, the
values of `profile.emails` and `profile.photos` (an absent array is `[]`) and
`profile.displayName`. -/
structure Profile where
  id : String
  emails : List String
  displayName : Option String
  photos : List String
deriving DecidableEq, Repr

/-- The two identity providers. -/
inductive Provider where
  | google
  | github
deriving DecidableEq, Repr

/-- The provider-id field a strategy queries: `googleId` or `githubId`. -/
def User.providerId : Provider → User → Option String
  | .google, u => u.googleId
  | .github, u => u.githubId

/-- A JavaScript error value: `err.name` and `err.message`. -/
structure Err where
  name : String
  message : String
deriving DecidableEq, Repr

/-- `User.findOne` on `googleId: pid` or on `githubId: pid`: the first document
whose field equals `pid`. -/
def findOne (p : Provider) (pid : String) (users : List User) : Option User :=
  users.find? (fun u => u.providerId p == some pid)

/-- `User.findById(id)`. -/
def findById (id : Nat) (users : List User) : Option User :=
  users.find? (fun u => u.id == id)

/-- A fresh `_id` for `User.create`: larger than every `_id` in the store. -/
def freshId (users : List User) : Nat :=
  (users.map (fun u => u.id)).foldr max 0 + 1

/-- The document built by `User.create` in the strategy of provider `p`. -/
def newUser (p : Provider) (users : List User) (profile : Profile) (email photo : String) : User :=
  match p with
  | .google =>
    { id := freshId users, googleId := some profile.id, githubId := none,
      email := some email, name := profile.displayName, avatar := some photo }
  | .github =>
    { id := freshId users, googleId := none, githubId := some profile.id,
      email := some email, name := profile.displayName, avatar := some photo }

/-- The verify callback of a strategy (`server.js` 188-203 for Google, 210-225
for GitHub): find by provider id, create if absent. Returns the arguments of
`done` (an error or the user) and the store afterwards. Reading
`profile.emails[0].value` or `profile.photos[0].value` of a profile without
them throws inside the `try`, which ends in `done(error, null)`. -/
def verify (p : Provider) (profile : Profile) (users : List User) :
    Except Err User × List User :=
  match findOne p profile.id users with
  | some user => (.ok user, users)
  | none =>
    match profile.emails.head?, profile.photos.head? with
    | some email, some photo =>
      let user := newUser p users profile email photo
      (.ok user, users ++ [user])
    | _, _ =>
      (.error { name := "TypeError", message := "Cannot read properties of undefined" }, users)

/-- The store after a sequence of logins, each running the verify callback of
its provider. -/
def runLogins (users : List User) (logins : List (Provider × Profile)) : List User :=
  logins.foldl (fun us l => (verify l.1 l.2 us).2) users

/-- How many documents carry provider id `pid` in the field of provider `p`. -/
def countWith (p : Provider) (pid : String) (users : List User) : Nat :=
  users.countP (fun u => u.providerId p == some pid)

/-! ## Sessions, OAuth callbacks, logout (`server.js` 169-181, 236-293) -/

/-- Server state: the `User` collection and the session store, which maps a
session token (the cookie) to the serialized user (`user.id`, `server.js` 170-172). -/
structure ServerState where
  users : List User
  sessions : List (String × Nat)

/-- `passport.session()` with `deserializeUser` (`server.js` 174-181): the
token is looked up in the session store and the stored id in the `User`
collection; `req.user` is set only when both succeed. -/
def resolveUser (st : ServerState) (sid : String) : Option User :=
  (st.sessions.lookup sid).bind (fun id => findById id st.users)

/-- The value of `req.isAuthenticated()` for a request presenting token `sid`. -/
def authenticatedIn (st : ServerState) (sid : String) : Bool :=
  (resolveUser st sid).isSome

/-- The session store after the session of `sid` is destroyed. -/
def dropSession (sid : String) (sessions : List (String × Nat)) : List (String × Nat) :=
  sessions.filter (fun e => e.1 != sid)

/-- `req.logIn(user)`: the session of `sid` now carries `user.id`. -/
def establish (sid : String) (user : User) (sessions : List (String × Nat)) :
    List (String × Nat) :=
  (sid, user.id) :: dropSession sid sessions

/-- What the OAuth library reports at the callback URL before the verify
callback runs: an error (provider or code exchange), a failure without user
(consent denied; `info?.message` may be absent), or a profile. -/
inductive OAuthResult where
  | error (err : Err)
  | fail (infoMessage : Option String)
  | profile (p : Profile)

/-- Whether a character is left as is by `encodeURIComponent`:
`A-Z a-z 0-9 - _ . ! ~ * ' ( )`. -/
def isUnreserved (c : Char) : Bool :=
  c.isAlphanum || c == '-' || c == '_' || c == '.' || c == '!' || c == '~' || c == '*' ||
    c == Char.ofNat 39 || c == '(' || c == ')'

/-- An upper-case hexadecimal digit. -/
def hexDigit (n : Nat) : Char :=
  if n < 10 then Char.ofNat (48 + n) else Char.ofNat (55 + n)

/-- The escape `%XX` of one byte. -/
def percentByte (b : UInt8) : List Char :=
  ['%', hexDigit (b.toNat / 16), hexDigit (b.toNat % 16)]

/-- The encoding of one character by `encodeURIComponent`. -/
def encodeChar (c : Char) : List Char :=
  if isUnreserved c then [c] else (String.utf8EncodeChar c).flatMap percentByte

/-- JavaScript `encodeURIComponent`. -/
def encodeURIComponent (s : String) : String :=
  ⟨s.data.flatMap encodeChar⟩

/-- JavaScript `a || b` on an optional string: `b` when `a` is absent or empty. -/
def orElse (a : Option String) (b : String) : String :=
  match a with
  | some s => if s = "" then b else s
  | none => b

/-- The error-handling middleware, `server.js` 337-360. -/
def errorMiddleware (env : Env) (err : Err) : Response :=
  if err.name = "MongooseError" ∨ err.name = "MongoError" then
    .json 503 (.obj [("error", .str "Database service unavailable"),
      ("message", .str "Please try again later")])
  else if err.name = "AuthenticationError" then
    .json 401 (.obj [("error", .str "Authentication failed"),
      ("message", .str (orElse (some err.message) "Please try logging in again"))])
  else
    .json 500 (.obj [("error", .str "Something went wrong"),
      ("message", .str (if env.NODE_ENV = some "development" then err.message
        else "An unexpected error occurred"))])

/-- The redirect `/login?error=<message>` of the Google callback. -/
def loginErrorRedirect (msg : String) : Response :=
  .redirect ("/login?error=" ++ encodeURIComponent msg)

/-- Route `GET /auth/google/callback`, `server.js` 238-258: `passport.authenticate`
with a custom callback. `logInFails` says whether `req.logIn` reports an error. -/
def googleCallback (st : ServerState) (sid : String) (result : OAuthResult)
    (logInFails : Bool) : Response × ServerState :=
  match result with
  | .error _ => (loginErrorRedirect "Authentication failed", st)
  | .fail info => (loginErrorRedirect (orElse info "Authentication failed"), st)
  | .profile p =>
    match verify .google p st.users with
    | (.error _, users) => (loginErrorRedirect "Authentication failed", { st with users := users })
    | (.ok user, users) =>
      if logInFails then
        (loginErrorRedirect "Login failed", { st with users := users })
      else
        (.redirect "/", { users := users, sessions := establish sid user st.sessions })

/-- Route `GET /auth/github/callback`, `server.js` 261-266: `passport.authenticate`
as a middleware with `failureRedirect: '/login'`. Passport redirects to
`failureRedirect` on a failure and passes an error to `next(err)`, which Express
routes to the error-handling middleware. -/
def githubCallback (env : Env) (st : ServerState) (sid : String) (result : OAuthResult)
    (logInFails : Option Err) : Response × ServerState :=
  match result with
  | .error err => (errorMiddleware env err, st)
  | .fail _ => (.redirect "/login", st)
  | .profile p =>
    match verify .github p st.users with
    | (.error err, users) => (errorMiddleware env err, { st with users := users })
    | (.ok user, users) =>
      match logInFails with
      | some err => (errorMiddleware env err, { st with users := users })
      | none => (.redirect "/", { users := users, sessions := establish sid user st.sessions })

/-- Route `POST /auth/logout`, `server.js` 277-293. `logoutErr` and
`destroyErr` say whether `req.logout` and `req.session.destroy` report an
error. After a successful `req.logout` the session no longer carries a user. -/
def logout (st : ServerState) (sid : String) (logoutErr destroyErr : Bool) :
    Response × ServerState :=
  if logoutErr then
    (.send 500 "Failed to logout", st)
  else if destroyErr then
    (.send 500 "Failed to logout", { st with sessions := dropSession sid st.sessions })
  else
    (.send 200 "Logged out successfully", { st with sessions := dropSession sid st.sessions })

/-- The request Express hands to the API routes for token `sid` in state `st`. -/
def requestOf (st : ServerState) (sid : String) (param : String) : Request :=
  { authenticated := authenticatedIn st sid, param := param }

/-- The requests the server answers: the two OAuth callbacks, logout, the two
guarded API routes, and `other` for every remaining route (`/auth/status`, `/`,
`/healthz`, static files, the OAuth redirects, the 404 handler), none of which
writes the `User` collection or the session store. -/
inductive Event where
  | googleCallback (sid : String) (result : OAuthResult) (logInFails : Bool)
  | githubCallback (sid : String) (result : OAuthResult) (logInFails : Option Err)
  | logout (sid : String) (logoutErr destroyErr : Bool)
  | apiWeather (sid : String) (city : String)
  | apiNews (sid : String) (category : String)
  | other (response : Response)

/-- Whether an event is an OAuth callback for token `sid`, the only requests
that can establish a session for it. -/
def Event.isLoginFor (sid : String) : Event → Bool
  | .googleCallback s _ _ => s == sid
  | .githubCallback s _ _ => s == sid
  | _ => false

/-- One request handled by the server: the response and the state afterwards. -/
def step (env : Env) (upstream : Upstream) (st : ServerState) : Event → Response × ServerState
  | .googleCallback sid result logInFails => googleCallback st sid result logInFails
  | .githubCallback sid result logInFails => githubCallback env st sid result logInFails
  | .logout sid logoutErr destroyErr => logout st sid logoutErr destroyErr
  | .apiWeather sid city => ((apiWeather env upstream (requestOf st sid city)).response, st)
  | .apiNews sid category => ((apiNews env upstream (requestOf st sid category)).response, st)
  | .other response => (response, st)

/-- The state after a sequence of requests. -/
def run (env : Env) (upstream : Upstream) (st : ServerState) (events : List Event) : ServerState :=
  events.foldl (fun s e => (step env upstream s e).2) st

/-! ## Start-up and port retry (`server.js` 370-389) -/

/-- A JavaScript value that is a number or a string, as `port` is. -/
inductive JsValue where
  | num (n : Nat)
  | str (s : String)
deriving DecidableEq, Repr

/-- `const PORT = process.env.PORT || 3000`: environment variables are strings,
and the empty string is falsy. -/
def PORT (envPort : Option String) : JsValue :=
  match envPort with
  | some s => if s = "" then .num 3000 else .str s
  | none => .num 3000

/-- JavaScript `port + 1`: addition on a number, concatenation on a string. -/
def plusOne : JsValue → JsValue
  | .num n => .num (n + 1)
  | .str s => .str (s ++ "1")

/-- The value of a string of decimal digits. -/
def decimalValue (digits : List Char) : Option Nat :=
  digits.foldl
    (fun acc c => acc.bind fun n => if c.isDigit then some (10 * n + (c.toNat - 48)) else none)
    (some 0)

/-- The number a port value denotes when it is given to `listen`: the number
itself, or the value of a non-empty string of decimal digits. -/
def JsValue.toNumber : JsValue → Option Nat
  | .num n => some n
  | .str s => if s.data = [] then none else decimalValue s.data

/-- The outcome of one `app.listen(port)`. -/
inductive ListenResult where
  | listening
  | addrInUse
  | otherError (code : String)
deriving DecidableEq, Repr

/-- `startServer(port)`, `server.js` 372-387, against the outcomes of the
successive `listen` calls: the ports on which `listen` is called, in order. An
attempt whose outcome is not in the list is the last one. -/
def startServer : List ListenResult → JsValue → List JsValue
  | .addrInUse :: rest, port => port :: startServer rest (plusOne port)
  | _, port => [port]

/-! ## Client: unit toggle and weather rendering (`public/app.js` 59-196) -/

/-- JavaScript `Math.round` on an exact rational: the nearest integer, halves
rounded up. -/
def mathRound (x : ℚ) : Int :=
  ⌊x + 1 / 2⌋

/-- `toF`, `app.js` 162. -/
def toF (c : ℚ) : Int :=
  mathRound (c * 9 / 5 + 32)

/-- The fields of a weather payload that `displayWeatherInfo` turns into the
city, description and temperature texts: `name`, `sys.country`,
`weather[0].description`, `main.temp`, `main.feels_like`, `main.temp_min`,
`main.temp_max`. -/
structure WeatherData where
  name : String
  country : String
  description : String
  temp : ℚ
  feels_like : ℚ
  temp_min : ℚ
  temp_max : ℚ
deriving DecidableEq

/-- The part of the page the unit toggle and `displayWeatherInfo` write that
depends on the unit or identifies the payload: `unitToggle.dataset.unit`, its
`aria-pressed` attribute and text, whether the main content and the weather
panel are shown, and the `textContent` of `weatherCity`, `weatherTemp`,
`weatherDesc`, `weatherFeelsLike`, `weatherMinMax` (the last two are `none` when
the page has no such element). -/
structure Dom where
  unit : String
  ariaPressed : String
  toggleLabel : String
  mainVisible : Bool
  resultsVisible : Bool
  weatherCity : String
  weatherTemp : String
  weatherDesc : String
  weatherFeelsLike : Option String
  weatherMinMax : Option String
deriving DecidableEq

/-- `displayWeatherInfo`, `app.js` 163-196, on the texts of `Dom`. -/
def displayWeatherInfo (data : WeatherData) (dom : Dom) : Dom :=
  let useF := dom.unit == "F"
  let t := mathRound data.temp
  { dom with
    resultsVisible := true
    weatherCity := data.name ++ ", " ++ data.country
    weatherTemp := if useF then toString (toF t) ++ "°F" else toString t ++ "°C"
    weatherDesc := data.description
    weatherFeelsLike := dom.weatherFeelsLike.map fun _ =>
      " " ++ (if useF then toString (toF data.feels_like) ++ "°F"
        else toString (mathRound data.feels_like) ++ "°C")
    weatherMinMax := dom.weatherMinMax.map fun _ =>
      " " ++ (if useF then toString (toF data.temp_min) ++ "°"
          else toString (mathRound data.temp_min) ++ "°")
        ++ " / " ++ (if useF then toString (toF data.temp_max) ++ "°F"
          else toString (mathRound data.temp_max) ++ "°C") }

/-- The outcome of a `fetch` followed by `response.json()`: the promise is
rejected, the response is not `ok`, or it is `ok` with a payload. -/
inductive Fetched (α : Type) where
  | failed
  | notOk
  | ok (data : α)

/-- A news article as returned by the news API; `none` is a `null` field. -/
structure Article where
  title : Option String
  description : Option String
  urlToImage : Option String
  url : Option String
  publishedAt : Option String
  sourceName : Option String
deriving DecidableEq

/-- A news payload; `articles` may be absent. -/
structure NewsData where
  articles : Option (List Article)

/-- A card appended to `newsResults`: its class, its `innerHTML` and the URL
its click handler opens. -/
structure Card where
  className : String
  innerHTML : String
  opens : Option String
deriving DecidableEq

/-- A child of `newsResults`: markup set through `innerHTML` or an appended card. -/
inductive NewsNode where
  | html (markup : String)
  | card (c : Card)
deriving DecidableEq

/-- The client state: the page, the module variable `lastWeatherData`, the
children of `newsResults`, the toast shown last, and the URLs fetched so far. -/
structure Client where
  dom : Dom
  lastWeatherData : Option WeatherData
  newsResults : List NewsNode
  toast : Option (String × String)
  fetches : List String

/-- The click handler of the unit toggle, `app.js` 129-135. -/
def toggleClick (c : Client) : Client :=
  let next := if c.dom.unit = "C" then "F" else "C"
  let dom := { c.dom with
    unit := next
    ariaPressed := if next = "F" then "true" else "false"
    toggleLabel := if next = "F" then "°F" else "°C" }
  match c.lastWeatherData with
  | some data => { c with dom := displayWeatherInfo data dom }
  | none => { c with dom := dom }

/-- JavaScript `String.prototype.trim` on the ASCII white space. -/
def trim (s : String) : String :=
  ⟨((s.data.dropWhile Char.isWhitespace).reverse.dropWhile Char.isWhitespace).reverse⟩

/-- The submit handler of the weather form, `app.js` 139-160, for the text in
the city input and the outcome of its fetch. -/
def submitWeather (cityInput : String) (reply : Fetched WeatherData) (c : Client) : Client :=
  let city := trim cityInput
  if city = "" then c
  else
    let c1 := { c with fetches := c.fetches ++ ["/api/weather/" ++ encodeURIComponent city] }
    match reply with
    | .ok data => { c1 with lastWeatherData := some data, dom := displayWeatherInfo data c1.dom }
    | _ => { c1 with toast := some ("error", "Failed to fetch weather data. Please try again.") }

/-- JavaScript truthiness of an optional string: present and non-empty. -/
def truthy (s : Option String) : Bool :=
  match s with
  | some t => t != ""
  | none => false

/-- Interpolation of an optional string in a template literal. -/
def interpolate (s : Option String) : String :=
  match s with
  | some t => t
  | none => "null"

/-- The card built for one article, `app.js` 232-250. `fmtDate` is
`new Date(publishedAt).toLocaleDateString()`, which depends on the locale. -/
def newsCard (fmtDate : Option String → String) (article : Article) : Card :=
  let thumb :=
    if truthy article.urlToImage then
      "<img class=\"news-thumb\" src=\"" ++ interpolate article.urlToImage ++ "\" alt=\""
        ++ interpolate article.title ++ "\">"
    else ""
  { className := "news-item"
    innerHTML :=
      "\n            " ++ thumb
      ++ "\n            <h5 class=\"card-title\">" ++ interpolate article.title ++ "</h5>"
      ++ "\n            <p class=\"card-text\">" ++ interpolate article.description ++ "</p>"
      ++ "\n            <div class=\"d-flex justify-content-between align-items-center\">"
      ++ "\n                <small class=\"text-muted\">" ++ fmtDate article.publishedAt ++ " • "
      ++ orElse article.sourceName "" ++ "</small>"
      ++ "\n                <a href=\"" ++ interpolate article.url
      ++ "\" target=\"_blank\" class=\"btn btn-sm btn-primary\">Read More</a>"
      ++ "\n            </div>\n        "
    opens := article.url }

/-- One iteration of the `forEach` of `displayNewsData`, `app.js` 230-252: an
article without title or description is skipped, any other gets a card
appended. -/
def appendArticle (fmtDate : Option String → String) (children : List NewsNode)
    (article : Article) : List NewsNode :=
  if !truthy article.title || !truthy article.description then children
  else children ++ [.card (newsCard fmtDate article)]

/-- The markup shown when there is no article. -/
def noArticles : NewsNode :=
  .html "<p class=\"text-center\">No news articles found.</p>"

/-- `displayNewsData`, `app.js` 223-253: the children of `newsResults` afterwards. -/
def displayNewsData (fmtDate : Option String → String) (data : NewsData) : List NewsNode :=
  match data.articles with
  | none => [noArticles]
  | some [] => [noArticles]
  | some articles => articles.foldl (appendArticle fmtDate) []

/-- An article with both a title and a description, present and non-empty. -/
def wellFormed (article : Article) : Bool :=
  truthy article.title && truthy article.description

/-- `checkAuthStatus`, `app.js` 62-100, for the outcomes of its three fetches:
`status` is the truthiness of `data.authenticated` (`none` when the fetch of
`/auth/status` or its `json()` is rejected), `weather` and `news` are the
replies for the default city and the default category. -/
def checkAuthStatus (fmtDate : Option String → String) (status : Option Bool)
    (weather : Fetched WeatherData) (news : Fetched NewsData) (c : Client) : Client :=
  let c0 := { c with fetches := c.fetches ++ ["/auth/status"] }
  match status with
  | some true =>
    let c1 := { c0 with
      dom := { c0.dom with mainVisible := true }
      fetches := c0.fetches ++ ["/api/weather/Rajpipla"] }
    let c2 : Client :=
      match weather with
      | .ok weatherData => { c1 with dom := displayWeatherInfo weatherData c1.dom }
      | .notOk => c1
      | .failed => { c1 with toast := some ("error", "Failed to load weather data") }
    let c3 := { c2 with fetches := c2.fetches ++ ["/api/news/general"] }
    match news with
    | .ok newsData => { c3 with newsResults := displayNewsData fmtDate newsData }
    | .notOk => c3
    | .failed => { c3 with toast := some ("error", "Failed to load news data") }
  | some false => { c0 with dom := { c0.dom with mainVisible := false } }
  | none =>
    { c0 with
      dom := { c0.dom with mainVisible := false }
      toast := some ("error", "Failed to check authentication status") }

/-- A page as first loaded: unit Celsius, nothing shown yet. -/
def freshPage : Dom :=
  { unit := "C", ariaPressed := "false", toggleLabel := "°C", mainVisible := false,
    resultsVisible := false, weatherCity := "", weatherTemp := "", weatherDesc := "",
    weatherFeelsLike := some "", weatherMinMax := some "" }

/-- The client as first loaded: `lastWeatherData` is `null`, nothing fetched. -/
def freshClient : Client :=
  { dom := freshPage, lastWeatherData := none, newsResults := [], toast := none, fetches := [] }

/-- A payload for a submitted city: 10 degrees, feels like 9, between 8 and 11. -/
def london : WeatherData :=
  { name := "London", country := "GB", description := "light rain",
    temp := 10, feels_like := 9, temp_min := 8, temp_max := 11 }

/-- A payload for the default city: 25 degrees, feels like 26, between 24 and 27. -/
def rajpipla : WeatherData :=
  { name := "Rajpipla", country := "IN", description := "clear sky",
    temp := 25, feels_like := 26, temp_min := 24, temp_max := 27 }

/-- The temperature texts of the page. -/
def Dom.temperatures (dom : Dom) : String × Option String × Option String :=
  (dom.weatherTemp, dom.weatherFeelsLike, dom.weatherMinMax)

/-- The page agrees with the remembered payload: the toggle text agrees with the
unit, and when a payload is remembered in `lastWeatherData` the texts on the
page are those `displayWeatherInfo` writes for it. The unit toggle and the form
submit keep this property; the on-load rendering of `checkAuthStatus` keeps it
only while `lastWeatherData` is `null`, so it is not an invariant of the
client. -/
def Consistent (c : Client) : Prop :=
  c.dom.toggleLabel = (if c.dom.unit = "F" then "°F" else "°C") ∧
    ∀ data, c.lastWeatherData = some data → displayWeatherInfo data c.dom = c.dom

/-! ## Route dispatch (`server.js` 77-78, 135, 236-334, 362-368) -/

/-- The HTTP methods. -/
inductive Method where
  | GET
  | HEAD
  | POST
  | PUT
  | PATCH
  | DELETE
  | OPTIONS
deriving DecidableEq, Repr

/-- A piece of a route path between slashes: literal text or a parameter such
as `:city`. -/
inductive PathSegment where
  | literal (text : String)
  | param (name : String)
deriving DecidableEq, Repr

/-- The pieces of a request path between slashes: `/a/b` is `["", "a", "b"]`,
`/a/` is `["", "a", ""]`. -/
def splitSlash : List Char → List (List Char)
  | [] => [[]]
  | c :: cs =>
    match splitSlash cs with
    | [] => [[]]
    | seg :: rest => if c = '/' then [] :: seg :: rest else (c :: seg) :: rest

/-- Express route matching with its default options (case-insensitive, one
optional trailing slash): the pieces of the path against the pieces of the
pattern, a parameter taking one non-empty piece. Returns the captured
parameters. -/
def matchSegments : List PathSegment → List (List Char) → Option (List String)
  | [], [] => some []
  | [], [[]] => some []
  | .literal text :: ps, seg :: segs =>
    if seg.map Char.toLower = text.data.map Char.toLower then matchSegments ps segs else none
  | .param _ :: ps, seg :: segs =>
    if seg = [] then none else (matchSegments ps segs).map (fun captured => ⟨seg⟩ :: captured)
  | _, _ => none

/-- Whether a request path (without query string) matches a route pattern, and
with which parameters. -/
def matchPath (pattern : List PathSegment) (path : String) : Option (List String) :=
  match splitSlash path.data with
  | [] :: segs => matchSegments pattern segs
  | _ => none

/-- The routes registered on the application. -/
inductive RouteId where
  | authGoogle
  | authGoogleCallback
  | authGithub
  | authGithubCallback
  | authStatus
  | authLogout
  | apiWeather
  | apiNews
  | index
  | healthz
deriving DecidableEq, Repr

/-- A registered route: `app.get(path, ...)` or `app.post(path, ...)`. -/
structure Route where
  id : RouteId
  verb : Method
  pattern : List PathSegment
deriving DecidableEq, Repr

/-- The routes in the order of their registration, `server.js` 236-334. -/
def routes : List Route :=
  [ ⟨.authGoogle, .GET, [.literal "auth", .literal "google"]⟩,
    ⟨.authGoogleCallback, .GET, [.literal "auth", .literal "google", .literal "callback"]⟩,
    ⟨.authGithub, .GET, [.literal "auth", .literal "github"]⟩,
    ⟨.authGithubCallback, .GET, [.literal "auth", .literal "github", .literal "callback"]⟩,
    ⟨.authStatus, .GET, [.literal "auth", .literal "status"]⟩,
    ⟨.authLogout, .POST, [.literal "auth", .literal "logout"]⟩,
    ⟨.apiWeather, .GET, [.literal "api", .literal "weather", .param "city"]⟩,
    ⟨.apiNews, .GET, [.literal "api", .literal "news", .param "category"]⟩,
    ⟨.index, .GET, []⟩,
    ⟨.healthz, .GET, [.literal "healthz"]⟩ ]

/-- Whether a route registered for `verb` takes a request of method `method`:
the same method, and a `GET` route also takes `HEAD`. -/
def methodMatches (verb method : Method) : Bool :=
  method == verb || (verb == .GET && method == .HEAD)

/-- Whether a route takes a request. -/
def Route.takes (r : Route) (method : Method) (path : String) : Bool :=
  methodMatches r.verb method && (matchPath r.pattern path).isSome

/-- The first registered route that takes the request. -/
def findRoute (method : Method) (path : String) : Option Route :=
  routes.find? (fun r => r.takes method path)

/-- The catch-all handler for undefined routes, `server.js` 363-368. -/
def notFoundHandler : Response :=
  .json 404 (.obj [("error", .str "Not Found"),
    ("message", .str "The requested resource was not found")])

/-- Handler of `GET /healthz`, `server.js` 332-334. -/
def healthzHandler : Response :=
  .json 200 (.obj [("status", .str "ok")])

/-- Handler of `GET /`, `server.js` 327-329. -/
def indexHandler : Response :=
  .sendFile "index.html" "public"

/-- A guarded API route on the captured path parameter. Express decodes the
parameter with `decodeURIComponent` (`decode`, which fails on a malformed
escape); a failure is an error passed to the error-handling middleware. -/
def apiRoute (env : Env) (decode : String → Option String) (route : Request → Handled)
    (captured : Option (List String)) (authenticated : Bool) : Response :=
  match captured with
  | some [raw] =>
    match decode raw with
    | some value => (route { authenticated := authenticated, param := value }).response
    | none => errorMiddleware env { name := "URIError", message := "Failed to decode param" }
  | _ => notFoundHandler

/-- The application as a function of method, path and `req.isAuthenticated()`,
for a request that passes the body parser, the rate limiter and the session
lookup. In the order of `server.js`: `express.static('public')` answers a `GET`
or `HEAD` for an existing file (`isStaticFile`); `cors()` with its default
options answers every `OPTIONS` request itself with status 204 and an empty
body; then the first matching route runs; a request no route takes reaches the
catch-all handler. The responses of the OAuth and session routes are given by
`authRoutes`. -/
def serve (env : Env) (upstream : Upstream) (isStaticFile : String → Bool)
    (decode : String → Option String) (authRoutes : RouteId → Response)
    (method : Method) (path : String) (authenticated : Bool) : Response :=
  if (method = .GET ∨ method = .HEAD) ∧ isStaticFile path = true then
    .sendFile path "public"
  else if method = .OPTIONS then
    .send 204 ""
  else
    match findRoute method path with
    | none => notFoundHandler
    | some r =>
      match r.id with
      | .apiWeather =>
        apiRoute env decode (apiWeather env upstream) (matchPath r.pattern path) authenticated
      | .apiNews =>
        apiRoute env decode (apiNews env upstream) (matchPath r.pattern path) authenticated
      | .index => indexHandler
      | .healthz => healthzHandler
      | id => authRoutes id

/-! ## Auth gate and weather proxy -/

/-- C1: a request that is not authenticated is answered by the auth gate with
status 401 and body `error: 'Not authenticated'`, the gate does not hand over,
so neither proxy handler runs and no upstream call is made; an authenticated
request is handed over with `next()` and the gate sends nothing itself, so the
route is exactly its handler. -/
theorem auth_gate_blocks_unauthenticated (env : Env) (upstream : Upstream) (req : Request) :
    (req.authenticated = false →
      isAuthenticated req = .respond (.json 401 (.obj [("error", .str "Not authenticated")])) ∧
      apiWeather env upstream req =
        { response := .json 401 (.obj [("error", .str "Not authenticated")]),
          upstreamCalls := [] } ∧
      apiNews env upstream req =
        { response := .json 401 (.obj [("error", .str "Not authenticated")]),
          upstreamCalls := [] }) ∧
    (req.authenticated = true →
      isAuthenticated req = .next ∧
      apiWeather env upstream req = weatherHandler env upstream req ∧
      apiNews env upstream req = newsHandler env upstream req) := by
  constructor
  · intro h
    simp [isAuthenticated, apiWeather, apiNews, guarded, errorBody, h]
  · intro h
    simp [isAuthenticated, apiWeather, apiNews, guarded, h]

/-- Witness of C1: an unauthenticated and an authenticated request for London,
with an upstream that is down. -/
theorem auth_gate_blocks_unauthenticated_witness :
    apiWeather ⟨none, none, none⟩ (fun _ => .error .network) ⟨false, "London"⟩ =
        { response := .json 401 (.obj [("error", .str "Not authenticated")]),
          upstreamCalls := [] } ∧
      isAuthenticated ⟨true, "London"⟩ = .next :=
  ⟨((auth_gate_blocks_unauthenticated ⟨none, none, none⟩ (fun _ => .error .network)
      ⟨false, "London"⟩).1 rfl).2.1,
    ((auth_gate_blocks_unauthenticated ⟨none, none, none⟩ (fun _ => .error .network)
      ⟨true, "London"⟩).2 rfl).1⟩

/-- C2: for an authenticated `GET /api/weather/:city`, when the upstream call
succeeds with JSON body `d` the response is `d` itself (status 200), and when it
fails, whatever the city and the cause, the response is status 500 with body
`error: 'Failed to fetch weather data'`; exactly one upstream call is made. -/
theorem weather_proxy_relays_or_collapses (env : Env) (upstream : Upstream) (req : Request)
    (hauth : req.authenticated = true) :
    (∀ d, upstream (weatherCall env req.param) = .ok d →
      (apiWeather env upstream req).response = .json 200 d) ∧
    (∀ e, upstream (weatherCall env req.param) = .error e →
      (apiWeather env upstream req).response =
        .json 500 (.obj [("error", .str "Failed to fetch weather data")])) ∧
    (apiWeather env upstream req).upstreamCalls = [weatherCall env req.param] := by
  refine ⟨?_, ?_, ?_⟩
  · intro d hd
    simp [apiWeather, guarded, isAuthenticated, hauth, weatherHandler, hd]
  · intro e he
    simp [apiWeather, guarded, isAuthenticated, hauth, weatherHandler, he, errorBody]
  · simp only [apiWeather, guarded, isAuthenticated, hauth, weatherHandler]
    cases upstream (weatherCall env req.param) <;> rfl

/-- Witness of C2 at city `London`: a successful upstream is relayed, a quota
failure collapses to the generic error. -/
theorem weather_proxy_relays_or_collapses_witness :
    (apiWeather ⟨some "key", none, none⟩ (fun _ => .ok (.obj [("name", .str "London")]))
        ⟨true, "London"⟩).response = .json 200 (.obj [("name", .str "London")]) ∧
      (apiWeather ⟨some "key", none, none⟩ (fun _ => .error .quotaExceeded)
        ⟨true, "London"⟩).response =
        .json 500 (.obj [("error", .str "Failed to fetch weather data")]) :=
  ⟨(weather_proxy_relays_or_collapses ⟨some "key", none, none⟩
      (fun _ => .ok (.obj [("name", .str "London")])) ⟨true, "London"⟩ rfl).1 _ rfl,
    (weather_proxy_relays_or_collapses ⟨some "key", none, none⟩
      (fun _ => .error .quotaExceeded) ⟨true, "London"⟩ rfl).2.1 _ rfl⟩

/-! ## User store: find-or-create -/

theorem findOne_eq_none_iff (p : Provider) (pid : String) (users : List User) :
    findOne p pid users = none ↔ countWith p pid users = 0 := by
  simp [findOne, countWith, List.find?_eq_none, List.countP_eq_zero]

theorem countWith_append (p : Provider) (pid : String) (a b : List User) :
    countWith p pid (a ++ b) = countWith p pid a + countWith p pid b := by
  simp [countWith, List.countP_append]

theorem providerId_newUser (q p : Provider) (users : List User) (profile : Profile)
    (email photo : String) :
    (newUser p users profile email photo).providerId q
      = if q = p then some profile.id else none := by
  cases p <;> cases q <;> simp [newUser, User.providerId]

theorem countWith_newUser (q p : Provider) (pid : String) (users : List User)
    (profile : Profile) (email photo : String) :
    countWith q pid [newUser p users profile email photo]
      = if q = p ∧ profile.id = pid then 1 else 0 := by
  simp only [countWith, List.countP_singleton, providerId_newUser]
  by_cases hq : q = p <;> by_cases hp : profile.id = pid <;> simp [hq, hp]

/-- The store after a verify callback: unchanged, or one document appended for a
provider id that had none. -/
theorem verify_store (p : Provider) (profile : Profile) (users : List User) :
    (verify p profile users).2 = users ∨
      (countWith p profile.id users = 0 ∧ ∃ email photo,
        (verify p profile users).2 = users ++ [newUser p users profile email photo]) := by
  unfold verify
  cases hf : findOne p profile.id users with
  | some u => left; rfl
  | none =>
    have h0 := (findOne_eq_none_iff p profile.id users).1 hf
    cases he : profile.emails.head? with
    | none => left; rfl
    | some email =>
      cases hp : profile.photos.head? with
      | none => left; rfl
      | some photo => right; exact ⟨h0, email, photo, rfl⟩

theorem verify_count_mono (p q : Provider) (profile : Profile) (pid : String)
    (users : List User) :
    countWith q pid users ≤ countWith q pid (verify p profile users).2 := by
  rcases verify_store p profile users with h | ⟨_, email, photo, h⟩
  · rw [h]
  · rw [h, countWith_append]; exact Nat.le_add_right _ _

theorem verify_count_le_one (p : Provider) (profile : Profile) (users : List User)
    (h : ∀ q pid, countWith q pid users ≤ 1) :
    ∀ q pid, countWith q pid (verify p profile users).2 ≤ 1 := by
  intro q pid
  rcases verify_store p profile users with hs | ⟨h0, email, photo, hs⟩
  · rw [hs]; exact h q pid
  · rw [hs, countWith_append, countWith_newUser]
    by_cases hc : q = p ∧ profile.id = pid
    · obtain ⟨rfl, rfl⟩ := hc
      simp [h0]
    · simp only [hc, if_false, Nat.add_zero]; exact h q pid

theorem verify_success_count (p : Provider) (profile : Profile) (users : List User)
    (he : profile.emails ≠ []) (hp : profile.photos ≠ []) :
    1 ≤ countWith p profile.id (verify p profile users).2 := by
  unfold verify
  cases hf : findOne p profile.id users with
  | some u =>
    have hne : countWith p profile.id users ≠ 0 := by
      intro h0
      rw [(findOne_eq_none_iff p profile.id users).2 h0] at hf
      cases hf
    exact Nat.one_le_iff_ne_zero.2 hne
  | none =>
    obtain ⟨email, es, hes⟩ := List.exists_cons_of_ne_nil he
    obtain ⟨photo, ps, hps⟩ := List.exists_cons_of_ne_nil hp
    simp [hes, hps, countWith_append, countWith_newUser]

theorem verify_single_field (p : Provider) (profile : Profile) (users : List User)
    (h : ∀ u ∈ users, u.googleId = none ∨ u.githubId = none) :
    ∀ u ∈ (verify p profile users).2, u.googleId = none ∨ u.githubId = none := by
  intro u hu
  rcases verify_store p profile users with hs | ⟨_, email, photo, hs⟩
  · rw [hs] at hu; exact h u hu
  · rw [hs, List.mem_append, List.mem_singleton] at hu
    rcases hu with hu | rfl
    · exact h u hu
    · cases p <;> simp [newUser]

theorem runLogins_cons (users : List User) (l : Provider × Profile)
    (logins : List (Provider × Profile)) :
    runLogins users (l :: logins) = runLogins (verify l.1 l.2 users).2 logins := rfl

theorem runLogins_count_mono (q : Provider) (pid : String) (logins : List (Provider × Profile)) :
    ∀ users, countWith q pid users ≤ countWith q pid (runLogins users logins) := by
  induction logins with
  | nil => intro users; exact le_rfl
  | cons l ls ih =>
    intro users
    rw [runLogins_cons]
    exact le_trans (verify_count_mono l.1 q l.2 pid users) (ih _)

theorem runLogins_count_le_one (logins : List (Provider × Profile)) :
    ∀ users, (∀ q pid, countWith q pid users ≤ 1) →
      ∀ q pid, countWith q pid (runLogins users logins) ≤ 1 := by
  induction logins with
  | nil => intro users h; exact h
  | cons l ls ih =>
    intro users h
    rw [runLogins_cons]
    exact ih _ (verify_count_le_one l.1 l.2 users h)

theorem runLogins_single_field (logins : List (Provider × Profile)) :
    ∀ users, (∀ u ∈ users, u.googleId = none ∨ u.githubId = none) →
      ∀ u ∈ runLogins users logins, u.googleId = none ∨ u.githubId = none := by
  induction logins with
  | nil => intro users h; exact h
  | cons l ls ih =>
    intro users h
    rw [runLogins_cons]
    exact ih _ (verify_single_field l.1 l.2 users h)

theorem runLogins_logged_in (logins : List (Provider × Profile)) :
    ∀ users, ∀ l ∈ logins, l.2.emails ≠ [] → l.2.photos ≠ [] →
      1 ≤ countWith l.1 l.2.id (runLogins users logins) := by
  induction logins with
  | nil => intro users l hl; cases hl
  | cons k ks ih =>
    intro users l hl he hp
    rw [runLogins_cons]
    rcases List.mem_cons.1 hl with rfl | hl
    · exact le_trans (verify_success_count l.1 l.2 users he hp)
        (runLogins_count_mono l.1 l.2.id ks _)
    · exact ih _ l hl he hp

theorem exists_of_countWith_pos (p : Provider) (pid : String) (users : List User)
    (h : 1 ≤ countWith p pid users) : ∃ u ∈ users, u.providerId p = some pid := by
  have hpos : 0 < List.countP (fun u => u.providerId p == some pid) users := h
  obtain ⟨u, hu, hq⟩ := List.countP_pos_iff.1 hpos
  exact ⟨u, hu, by simpa using hq⟩

/-- C3: starting from the empty store, after any finite sequence of logins,
(1) every provider and provider id that logged in with a profile carrying an
email and a photo has exactly one document with that id in that provider's
field; (2) no provider id ever has more than one document; (3) in any store, a
login whose (provider, id) already has a document creates none; (4) the same id
value logged in under Google and under GitHub is held by two distinct
documents, one per field. -/
theorem find_or_create_one_record_per_provider_id (logins : List (Provider × Profile)) :
    (∀ l ∈ logins, l.2.emails ≠ [] → l.2.photos ≠ [] →
      countWith l.1 l.2.id (runLogins [] logins) = 1) ∧
    (∀ p pid, countWith p pid (runLogins [] logins) ≤ 1) ∧
    (∀ users p profile, 1 ≤ countWith p profile.id users →
      (verify p profile users).2 = users) ∧
    (∀ g ∈ logins, ∀ h ∈ logins, g.1 = .google → h.1 = .github → g.2.id = h.2.id →
      g.2.emails ≠ [] → g.2.photos ≠ [] → h.2.emails ≠ [] → h.2.photos ≠ [] →
      ∃ u ∈ runLogins [] logins, ∃ v ∈ runLogins [] logins,
        u ≠ v ∧ u.googleId = some g.2.id ∧ v.githubId = some g.2.id) := by
  have hle : ∀ p pid, countWith p pid (runLogins [] logins) ≤ 1 :=
    runLogins_count_le_one logins [] (fun q pid => by simp [countWith])
  have hone : ∀ l ∈ logins, l.2.emails ≠ [] → l.2.photos ≠ [] →
      countWith l.1 l.2.id (runLogins [] logins) = 1 := fun l hl he hp =>
    le_antisymm (hle _ _) (runLogins_logged_in logins [] l hl he hp)
  refine ⟨hone, hle, ?_, ?_⟩
  · intro users p profile hpos
    rcases verify_store p profile users with hs | ⟨h0, _⟩
    · exact hs
    · omega
  · intro g hg h hh hgp hhp hid heg hpg heh hph
    obtain ⟨u, hu, hup⟩ := exists_of_countWith_pos _ _ _ (le_of_eq (hone g hg heg hpg).symm)
    obtain ⟨v, hv, hvp⟩ := exists_of_countWith_pos _ _ _ (le_of_eq (hone h hh heh hph).symm)
    rw [hgp] at hup
    rw [hhp, ← hid] at hvp
    refine ⟨u, hu, v, hv, ?_, hup, hvp⟩
    intro huv
    subst huv
    have hsingle := runLogins_single_field logins [] (fun u hu => by cases hu) u hu
    simp only [User.providerId] at hup hvp
    rcases hsingle with h1 | h1
    · rw [h1] at hup; cases hup
    · rw [h1] at hvp; cases hvp

/-- Witness of C3: the id `42` logs in under Google, under GitHub, and under
Google again; each field holds it exactly once. -/
theorem find_or_create_one_record_per_provider_id_witness :
    countWith .google "42" (runLogins []
        [(.google, ⟨"42", ["ann@example.org"], some "Ann", ["ann.png"]⟩),
         (.github, ⟨"42", ["bob@example.org"], some "Bob", ["bob.png"]⟩),
         (.google, ⟨"42", ["new@example.org"], some "Ann B", ["new.png"]⟩)]) = 1 ∧
      countWith .github "42" (runLogins []
        [(.google, ⟨"42", ["ann@example.org"], some "Ann", ["ann.png"]⟩),
         (.github, ⟨"42", ["bob@example.org"], some "Bob", ["bob.png"]⟩),
         (.google, ⟨"42", ["new@example.org"], some "Ann B", ["new.png"]⟩)]) = 1 :=
  ⟨(find_or_create_one_record_per_provider_id _).1
      (.google, ⟨"42", ["ann@example.org"], some "Ann", ["ann.png"]⟩)
      (List.mem_cons_self _ _) (by simp) (by simp),
    (find_or_create_one_record_per_provider_id _).1
      (.github, ⟨"42", ["bob@example.org"], some "Bob", ["bob.png"]⟩)
      (List.mem_cons_of_mem _ (List.mem_cons_self _ _)) (by simp) (by simp)⟩

theorem verify_store_extends (p : Provider) (profile : Profile) (users : List User) :
    users <+: (verify p profile users).2 := by
  rcases verify_store p profile users with hs | ⟨_, email, photo, hs⟩
  · rw [hs]
  · rw [hs]; exact List.prefix_append _ _

theorem step_users_extend (env : Env) (upstream : Upstream) (st : ServerState) (e : Event) :
    st.users <+: (step env upstream st e).2.users := by
  cases e with
  | googleCallback sid result logInFails =>
    cases result with
    | error err => exact List.prefix_refl _
    | fail info => exact List.prefix_refl _
    | profile p =>
      have hv := verify_store_extends .google p st.users
      simp only [step, googleCallback]
      rcases hr : verify .google p st.users with ⟨r, users⟩
      rw [hr] at hv
      cases r with
      | error err => exact hv
      | ok user => cases logInFails <;> exact hv
  | githubCallback sid result logInFails =>
    cases result with
    | error err => exact List.prefix_refl _
    | fail info => exact List.prefix_refl _
    | profile p =>
      have hv := verify_store_extends .github p st.users
      simp only [step, githubCallback]
      rcases hr : verify .github p st.users with ⟨r, users⟩
      rw [hr] at hv
      cases r with
      | error err => exact hv
      | ok user => cases logInFails <;> exact hv
  | logout sid logoutErr destroyErr =>
    simp only [step, logout]
    cases logoutErr <;> cases destroyErr <;> exact List.prefix_refl _
  | apiWeather sid city => exact List.prefix_refl _
  | apiNews sid category => exact List.prefix_refl _
  | other response => exact List.prefix_refl _

theorem run_users_extend (env : Env) (upstream : Upstream) (events : List Event) :
    ∀ st, st.users <+: (run env upstream st events).users := by
  induction events with
  | nil => intro st; exact List.prefix_refl _
  | cons e es ih =>
    intro st
    exact List.IsPrefix.trans (step_users_extend env upstream st e) (ih _)

/-- C4: in every store, a login whose provider id already has a document gets
that stored document back from the verify callback and leaves the store as it
was, whatever email, display name and photos the incoming profile carries; and
over any sequence of requests handled by the server, the documents present
before are still there, unchanged and in place (the store before is an initial
segment of the store after). -/
theorem existing_user_returned_store_unchanged :
    (∀ (p : Provider) (profile : Profile) (users : List User),
      (∃ u ∈ users, u.providerId p = some profile.id) →
      ∃ u ∈ users, u.providerId p = some profile.id ∧
        verify p profile users = (.ok u, users)) ∧
    (∀ (env : Env) (upstream : Upstream) (st : ServerState) (events : List Event),
      st.users <+: (run env upstream st events).users) := by
  refine ⟨?_, fun env upstream st events => run_users_extend env upstream events st⟩
  intro p profile users ⟨u, hu, hup⟩
  cases hf : findOne p profile.id users with
  | none =>
    have h0 := List.find?_eq_none.1 hf u hu
    simp [hup] at h0
  | some v =>
    have hmem : v ∈ users := List.mem_of_find?_eq_some hf
    have hv : v.providerId p = some profile.id := by
      simpa using List.find?_some hf
    exact ⟨v, hmem, hv, by simp [verify, hf]⟩

/-- Witness of C4: a stored Google user logs in again with a new email, name
and photo; the stored document comes back and the store is unchanged. -/
theorem existing_user_returned_store_unchanged_witness :
    ∃ u ∈ [(⟨1, some "42", none, some "ann@example.org", some "Ann", some "ann.png"⟩ : User)],
      u.providerId .google = some "42" ∧
      verify .google ⟨"42", ["new@example.org"], some "Ann B", ["new.png"]⟩
          [⟨1, some "42", none, some "ann@example.org", some "Ann", some "ann.png"⟩]
        = (.ok u, [⟨1, some "42", none, some "ann@example.org", some "Ann", some "ann.png"⟩]) :=
  existing_user_returned_store_unchanged.1 .google
    ⟨"42", ["new@example.org"], some "Ann B", ["new.png"]⟩
    [⟨1, some "42", none, some "ann@example.org", some "Ann", some "ann.png"⟩]
    ⟨_, List.mem_cons_self _ _, rfl⟩

/-! ## Sessions: logout revokes -/

theorem lookup_dropSession (sid t : String) (sessions : List (String × Nat))
    (h : t = sid ∨ sessions.lookup sid = none) :
    (dropSession t sessions).lookup sid = none := by
  rw [List.lookup_eq_none_iff] at h ⊢
  intro e he
  obtain ⟨hmem, hkeep⟩ := List.mem_filter.1 he
  rcases h with h | h
  · subst h
    have hne : e.1 ≠ t := by simpa using hkeep
    simpa using fun hh : t = e.1 => hne hh.symm
  · exact h e hmem

theorem lookup_establish (sid t : String) (user : User) (sessions : List (String × Nat))
    (hne : t ≠ sid) (h : sessions.lookup sid = none) :
    (establish t user sessions).lookup sid = none := by
  have hd := lookup_dropSession sid t sessions (Or.inr h)
  have hs : (sid == t) = false := by simpa using fun hh : sid = t => hne hh.symm
  rw [establish, List.lookup_cons, hs]
  exact hd

/-- A request that is not an OAuth callback for `sid` leaves `sid` without a
session if it had none. -/
theorem step_keeps_logged_out (env : Env) (upstream : Upstream) (st : ServerState)
    (sid : String) (e : Event) (he : e.isLoginFor sid = false)
    (h : st.sessions.lookup sid = none) :
    (step env upstream st e).2.sessions.lookup sid = none := by
  cases e with
  | googleCallback t result logInFails =>
    have hne : t ≠ sid := by simpa [Event.isLoginFor] using he
    cases result with
    | error err => exact h
    | fail info => exact h
    | profile p =>
      simp only [step, googleCallback]
      rcases verify .google p st.users with ⟨r, users⟩
      cases r with
      | error err => exact h
      | ok user =>
        cases logInFails
        · exact lookup_establish sid t user st.sessions hne h
        · exact h
  | githubCallback t result logInFails =>
    have hne : t ≠ sid := by simpa [Event.isLoginFor] using he
    cases result with
    | error err => exact h
    | fail info => exact h
    | profile p =>
      simp only [step, githubCallback]
      rcases verify .github p st.users with ⟨r, users⟩
      cases r with
      | error err => exact h
      | ok user =>
        cases logInFails with
        | none => exact lookup_establish sid t user st.sessions hne h
        | some err => exact h
  | logout t logoutErr destroyErr =>
    simp only [step, logout]
    cases logoutErr <;> cases destroyErr <;>
      first
        | exact h
        | exact lookup_dropSession sid t st.sessions (Or.inr h)
  | apiWeather t city => exact h
  | apiNews t category => exact h
  | other response => exact h

theorem run_keeps_logged_out (env : Env) (upstream : Upstream) (sid : String)
    (events : List Event) :
    ∀ st, (∀ e ∈ events, e.isLoginFor sid = false) → st.sessions.lookup sid = none →
      (run env upstream st events).sessions.lookup sid = none := by
  induction events with
  | nil => intro st _ h; exact h
  | cons e es ih =>
    intro st he h
    exact ih _ (fun x hx => he x (List.mem_cons_of_mem _ hx))
      (step_keeps_logged_out env upstream st sid e (he e (List.mem_cons_self _ _)) h)

/-- C5: after `POST /auth/logout` answered 200 for session token `sid`, and after
any further requests among which there is no OAuth callback for `sid`, a request
to `/api/weather/*` or `/api/news/*` presenting `sid` is answered 401 by the auth
gate. -/
theorem logout_revokes_session (env : Env) (upstream : Upstream) (st : ServerState)
    (sid : String) (logoutErr destroyErr : Bool) (events : List Event) (param : String)
    (hok : (logout st sid logoutErr destroyErr).1.status = 200)
    (hno : ∀ e ∈ events, e.isLoginFor sid = false) :
    (step env upstream (run env upstream (logout st sid logoutErr destroyErr).2 events)
        (.apiWeather sid param)).1 = .json 401 (.obj [("error", .str "Not authenticated")]) ∧
    (step env upstream (run env upstream (logout st sid logoutErr destroyErr).2 events)
        (.apiNews sid param)).1 = .json 401 (.obj [("error", .str "Not authenticated")]) := by
  have hout : (logout st sid logoutErr destroyErr).2.sessions.lookup sid = none := by
    cases logoutErr <;> cases destroyErr <;>
      simp only [logout, Response.status, if_true, if_false, Bool.false_eq_true] at hok ⊢
    all_goals first
      | exact lookup_dropSession sid sid st.sessions (Or.inl rfl)
      | omega
  have hrun := run_keeps_logged_out env upstream sid events _ hno hout
  have hauth : authenticatedIn
      (run env upstream (logout st sid logoutErr destroyErr).2 events) sid = false := by
    simp [authenticatedIn, resolveUser, hrun]
  simp [step, apiWeather, apiNews, guarded, isAuthenticated, requestOf, hauth, errorBody]

/-- Witness of C5: Ann is logged in with token `s1`, logs out, Bob logs in with
token `s2` and fetches news; a weather request with `s1` is then answered 401. -/
theorem logout_revokes_session_witness :
    authenticatedIn
        ⟨[⟨1, some "42", none, some "ann@example.org", some "Ann", some "a.png"⟩], [("s1", 1)]⟩
        "s1" = true ∧
    (step ⟨none, none, none⟩ (fun _ => .error .network)
      (run ⟨none, none, none⟩ (fun _ => .error .network)
        (logout ⟨[⟨1, some "42", none, some "ann@example.org", some "Ann", some "a.png"⟩],
          [("s1", 1)]⟩ "s1" false false).2
        [.googleCallback "s2" (.profile ⟨"7", ["bob@example.org"], some "Bob", ["b.png"]⟩) false,
         .apiNews "s2" "general"])
      (.apiWeather "s1" "London")).1 = .json 401 (.obj [("error", .str "Not authenticated")]) :=
  ⟨by decide, (logout_revokes_session ⟨none, none, none⟩ (fun _ => .error .network)
    ⟨[⟨1, some "42", none, some "ann@example.org", some "Ann", some "a.png"⟩], [("s1", 1)]⟩
    "s1" false false
    [.googleCallback "s2" (.profile ⟨"7", ["bob@example.org"], some "Bob", ["b.png"]⟩) false,
     .apiNews "s2" "general"]
    "London" rfl (by simp [Event.isLoginFor])).1⟩

/-! ## OAuth callback failures -/

theorem encodeChar_ne_nil (c : Char) : encodeChar c ≠ [] := by
  unfold encodeChar
  split
  · simp
  · intro h
    rw [List.flatMap_eq_nil_iff] at h
    have hlen : 0 < (String.utf8EncodeChar c).length := by
      rw [String.length_utf8EncodeChar]; exact Char.utf8Size_pos c
    obtain ⟨b, bs, hb⟩ := List.exists_cons_of_ne_nil (List.ne_nil_of_length_pos hlen)
    have := h b (by rw [hb]; exact List.mem_cons_self _ _)
    simp [percentByte] at this

theorem encodeURIComponent_ne_empty (s : String) (h : s ≠ "") : encodeURIComponent s ≠ "" := by
  intro he
  have hd : s.data.flatMap encodeChar = [] := by
    have := congrArg String.data he
    simpa [encodeURIComponent] using this
  rw [List.flatMap_eq_nil_iff] at hd
  cases hs : s.data with
  | nil => exact h (String.ext hs)
  | cons c cs => exact encodeChar_ne_nil c (hd c (by rw [hs]; exact List.mem_cons_self _ _))

theorem orElse_ne_empty (a : Option String) (b : String) (hb : b ≠ "") : orElse a b ≠ "" := by
  unfold orElse
  cases a with
  | none => exact hb
  | some s => by_cases hs : s = "" <;> simp [hs, hb]

/-- The Google callback does what the specification says of both providers:
every outcome other than a completed login is a redirect to
`/login?error=<message>` with a non-empty message. -/
theorem googleCallback_failure_redirects (st : ServerState) (sid : String)
    (result : OAuthResult) (logInFails : Bool)
    (hfail : (googleCallback st sid result logInFails).1 ≠ .redirect "/") :
    ∃ msg, msg ≠ "" ∧
      (googleCallback st sid result logInFails).1 = .redirect ("/login?error=" ++ msg) := by
  have hmsg : ∀ m : String, m ≠ "" → ∃ msg, msg ≠ "" ∧
      loginErrorRedirect m = .redirect ("/login?error=" ++ msg) := fun m hm =>
    ⟨encodeURIComponent m, encodeURIComponent_ne_empty m hm, rfl⟩
  cases result with
  | error err => exact hmsg _ (by decide)
  | fail info => exact hmsg _ (orElse_ne_empty info _ (by decide))
  | profile p =>
    simp only [googleCallback] at hfail ⊢
    generalize verify .google p st.users = v at hfail ⊢
    obtain ⟨r, users⟩ := v
    cases r with
    | error err => exact hmsg _ (by decide)
    | ok user =>
      cases logInFails
      · exact absurd rfl hfail
      · exact hmsg _ (by decide)

/-- C6, on the code: the GitHub callback does not do what the Google callback
does. When consent is denied it redirects to `/login` with no query parameter,
and when the provider or the code exchange reports an error the request ends in
the error-handling middleware, which answers 500 with a JSON body; the Google
callback redirects to `/login?error=Authentication%20failed` in both cases. -/
theorem githubCallback_failure_without_message :
    (githubCallback ⟨none, none, none⟩ ⟨[], []⟩ "s1" (.fail (some "access denied")) none).1
        = .redirect "/login" ∧
      (githubCallback ⟨none, none, none⟩ ⟨[], []⟩ "s1"
          (.error ⟨"InternalOAuthError", "Failed to obtain access token"⟩) none).1
        = .json 500 (.obj [("error", .str "Something went wrong"),
            ("message", .str "An unexpected error occurred")]) ∧
      (googleCallback ⟨[], []⟩ "s1"
          (.error ⟨"InternalOAuthError", "Failed to obtain access token"⟩) false).1
        = .redirect "/login?error=Authentication%20failed" ∧
      (googleCallback ⟨[], []⟩ "s1" (.fail (some "access denied")) false).1
        = .redirect "/login?error=access%20denied" := by
  refine ⟨rfl, ?_, ?_, ?_⟩
  · simp [githubCallback, errorMiddleware]
  · simp [googleCallback, loginErrorRedirect]
    decide
  · simp [googleCallback, loginErrorRedirect, orElse]
    decide

/-! ## Port retry -/

/-- On a numeric port the retry is arithmetic: while `listen` reports
`EADDRINUSE`, the attempt after port `p` is on port `p + 1`. -/
theorem startServer_num_addrInUse (k p : Nat) (rest : List ListenResult) :
    startServer (List.replicate k .addrInUse ++ rest) (.num p)
      = (List.range k).map (fun i => .num (p + i)) ++ startServer rest (.num (p + k)) := by
  induction k generalizing p with
  | zero => simp
  | succ k ih =>
    rw [List.replicate_succ, List.cons_append, startServer, plusOne, ih (p + 1),
      List.range_succ_eq_map, List.map_cons, List.map_map, List.cons_append]
    have hfun : ((fun i => JsValue.num (p + i)) ∘ Nat.succ) = fun i => JsValue.num (p + 1 + i) := by
      funext i; simp [Nat.succ_eq_add_one]; omega
    rw [hfun]
    simp [Nat.add_assoc, Nat.add_comm 1 k]

/-- A listen error other than `EADDRINUSE` ends the attempts. -/
theorem startServer_otherError (code : String) (rest : List ListenResult) (port : JsValue) :
    startServer (.otherError code :: rest) port = [port] := rfl

/-- C10, on the code: with `PORT=8080` in the environment the port is the string
`"8080"`, `port + 1` is the string `"80801"`, and the retry after `EADDRINUSE`
is made on 80801, not on 8081; with the default (the number 3000) the retry is
made on 3001. -/
theorem startServer_env_port_retry_concatenates :
    startServer [.addrInUse, .listening] (PORT (some "8080")) = [.str "8080", .str "80801"] ∧
      (plusOne (PORT (some "8080"))).toNumber = some 80801 ∧
      (PORT (some "8080")).toNumber = some 8080 ∧
      startServer [.addrInUse, .listening] (PORT none) = [.num 3000, .num 3001] := by
  refine ⟨?_, ?_, ?_, ?_⟩ <;> decide

/-! ## Client: news cards -/

theorem foldl_appendArticle (fmtDate : Option String → String) (articles : List Article) :
    ∀ children, articles.foldl (appendArticle fmtDate) children
      = children ++ (articles.filter wellFormed).map (fun a => .card (newsCard fmtDate a)) := by
  induction articles with
  | nil => intro children; simp
  | cons a as ih =>
    intro children
    rw [List.foldl_cons, ih]
    by_cases hw : wellFormed a = true
    · have hb : truthy a.title = true ∧ truthy a.description = true := by
        simpa [wellFormed] using hw
      simp [appendArticle, hb.1, hb.2, List.filter_cons, hw]
    · have hb : truthy a.title = true → truthy a.description = false := by
        simpa [wellFormed] using hw
      have hskip : appendArticle fmtDate children a = children := by
        unfold appendArticle
        cases ht : truthy a.title
        · simp
        · simp [hb ht]
      simp [hskip, List.filter_cons, hw]

/-- C9: for a news payload with a non-empty `articles` list, `displayNewsData`
leaves in `newsResults` exactly the cards of the articles that have both a title
and a description (present and non-empty), one each, in the order of the list,
and nothing for the others; so the number of children is the number of
well-formed articles. The function is total: no article makes it fail. -/
theorem displayNewsData_cards (fmtDate : Option String → String) (data : NewsData)
    (articles : List Article) (harticles : data.articles = some articles)
    (hne : articles ≠ []) :
    displayNewsData fmtDate data
        = (articles.filter wellFormed).map (fun a => .card (newsCard fmtDate a)) ∧
      (displayNewsData fmtDate data).length = articles.countP wellFormed := by
  have hd : displayNewsData fmtDate data
      = (articles.filter wellFormed).map (fun a => .card (newsCard fmtDate a)) := by
    unfold displayNewsData
    rw [harticles]
    cases articles with
    | nil => exact absurd rfl hne
    | cons a as => simpa using foldl_appendArticle fmtDate (a :: as) []
  refine ⟨hd, ?_⟩
  rw [hd, List.length_map, List.countP_eq_length_filter]

/-- Witness of C9: of three articles, the second has no description and the
third an empty title; one card is rendered, for the first. -/
theorem displayNewsData_cards_witness :
    displayNewsData (fun _ => "1/1/2025")
        ⟨some [⟨some "A", some "a", none, some "u1", none, some "BBC"⟩,
          ⟨some "B", none, none, some "u2", none, none⟩,
          ⟨some "", some "c", none, some "u3", none, none⟩]⟩
      = [.card (newsCard (fun _ => "1/1/2025")
          ⟨some "A", some "a", none, some "u1", none, some "BBC"⟩)] :=
  (displayNewsData_cards (fun _ => "1/1/2025")
    ⟨some [⟨some "A", some "a", none, some "u1", none, some "BBC"⟩,
      ⟨some "B", none, none, some "u2", none, none⟩,
      ⟨some "", some "c", none, some "u3", none, none⟩]⟩ _ rfl (by simp)).1

/-! ## Client: unit toggle -/

theorem mathRound_eq (x : ℚ) (n : Int) (hlo : (n : ℚ) ≤ x + 1 / 2) (hhi : x + 1 / 2 < n + 1) :
    mathRound x = n := by
  unfold mathRound
  exact Int.floor_eq_iff.2 ⟨hlo, hhi⟩

/-- Rendering a payload twice is rendering it once. -/
theorem displayWeatherInfo_idem (data : WeatherData) (dom : Dom) :
    displayWeatherInfo data (displayWeatherInfo data dom) = displayWeatherInfo data dom := by
  obtain ⟨unit, aria, label, mv, rv, city, temp, desc, fl, mm⟩ := dom
  cases fl <;> cases mm <;> simp [displayWeatherInfo]

/-- The unit toggle keeps the page consistent. -/
theorem consistent_toggleClick (c : Client) (h : Consistent c) : Consistent (toggleClick c) := by
  obtain ⟨⟨unit, aria, label, mv, rv, city, temp, desc, fl, mm⟩, last, news, toast, fetches⟩ := c
  cases last with
  | none =>
    refine ⟨?_, fun data hd => by simp [toggleClick] at hd⟩
    by_cases hu : unit = "C" <;> simp [toggleClick, hu]
  | some d =>
    refine ⟨?_, fun data hd => ?_⟩
    · by_cases hu : unit = "C" <;> simp [toggleClick, displayWeatherInfo, hu]
    · have hdata : d = data := by simpa [toggleClick] using hd
      subst hdata
      simp only [toggleClick]
      exact displayWeatherInfo_idem _ _

/-- A weather form submit keeps the page consistent. -/
theorem consistent_submitWeather (cityInput : String) (reply : Fetched WeatherData)
    (c : Client) (h : Consistent c) : Consistent (submitWeather cityInput reply c) := by
  unfold submitWeather
  by_cases hcity : trim cityInput = ""
  · simpa [hcity] using h
  · simp only [hcity, if_false]
    cases reply with
    | ok data =>
      refine ⟨?_, fun d hd => ?_⟩
      · simpa [displayWeatherInfo] using h.1
      · have hdata : data = d := by simpa using hd
        subst hdata
        exact displayWeatherInfo_idem _ _
    | failed => exact h
    | notOk => exact h

/-- Where the page agrees with the remembered payload (`Consistent`), two clicks
on the unit toggle in unit C leave the unit, the toggle text and every
temperature text (temperature, feels-like, min/max) as they were, and change
neither `lastWeatherData` nor the list of fetches. -/
theorem toggle_twice_restores_consistent (c : Client) (hunit : c.dom.unit = "C")
    (hc : Consistent c) :
    (toggleClick (toggleClick c)).dom.unit = c.dom.unit ∧
      (toggleClick (toggleClick c)).dom.toggleLabel = c.dom.toggleLabel ∧
      (toggleClick (toggleClick c)).dom.temperatures = c.dom.temperatures ∧
      (toggleClick (toggleClick c)).lastWeatherData = c.lastWeatherData ∧
      (toggleClick (toggleClick c)).fetches = c.fetches := by
  obtain ⟨⟨unit, aria, label, mv, rv, city, temp, desc, fl, mm⟩, last, news, toast, fetches⟩ := c
  obtain ⟨hlabel, hshown⟩ := hc
  simp only at hunit
  subst hunit
  have hl : label = "°C" := by simpa using hlabel
  subst hl
  cases last with
  | none => simp [toggleClick, Dom.temperatures]
  | some d =>
    have hd := hshown d rfl
    simp only [displayWeatherInfo, Dom.mk.injEq] at hd
    obtain ⟨-, -, -, -, -, -, htemp, -, hfl, hmm⟩ := hd
    cases fl <;> cases mm <;>
      simp_all [toggleClick, displayWeatherInfo, Dom.temperatures]

/-- The on-load rendering keeps the page consistent as long as no payload has
been remembered yet; with a remembered payload it does not, see
`toggle_twice_after_late_load_changes_display`. -/
theorem consistent_checkAuthStatus (fmtDate : Option String → String) (status : Option Bool)
    (weather : Fetched WeatherData) (news : Fetched NewsData) (c : Client)
    (hnone : c.lastWeatherData = none) (h : Consistent c) :
    Consistent (checkAuthStatus fmtDate status weather news c) ∧
      (checkAuthStatus fmtDate status weather news c).lastWeatherData = none := by
  obtain ⟨hlabel, -⟩ := h
  unfold checkAuthStatus
  rcases status with _ | _ | _ <;> cases weather <;> cases news <;>
    exact ⟨⟨by simpa [displayWeatherInfo] using hlabel,
      fun d hd => by simp [hnone] at hd⟩, by simpa using hnone⟩

theorem mathRound_intCast (n : Int) : mathRound (n : ℚ) = n :=
  mathRound_eq _ n (by linarith) (by linarith)

/-- C8, on the code: `checkAuthStatus` renders the default city without storing
the payload in `lastWeatherData`, so after the on-load fetch a click on the unit
toggle switches the unit and the toggle text to Fahrenheit while the page keeps
showing `25°C`; after a form submit of the same payload the click re-renders it
as `77°F`, without a new fetch. -/
theorem toggleClick_after_load_not_rerendered :
    (checkAuthStatus (fun _ => "") (some true) (.ok rajpipla) .notOk freshClient).lastWeatherData
        = none ∧
      (checkAuthStatus (fun _ => "") (some true) (.ok rajpipla) .notOk freshClient).dom.weatherTemp
        = "25°C" ∧
      (toggleClick (checkAuthStatus (fun _ => "") (some true) (.ok rajpipla) .notOk
        freshClient)).dom.unit = "F" ∧
      (toggleClick (checkAuthStatus (fun _ => "") (some true) (.ok rajpipla) .notOk
        freshClient)).dom.toggleLabel = "°F" ∧
      (toggleClick (checkAuthStatus (fun _ => "") (some true) (.ok rajpipla) .notOk
        freshClient)).dom.weatherTemp = "25°C" ∧
      (toggleClick (submitWeather "Rajpipla" (.ok rajpipla) freshClient)).dom.weatherTemp
        = "77°F" ∧
      (toggleClick (submitWeather "Rajpipla" (.ok rajpipla) freshClient)).fetches
        = (submitWeather "Rajpipla" (.ok rajpipla) freshClient).fetches := by
  have h25 : mathRound (25 : ℚ) = 25 := mathRound_intCast 25
  have h77 : toF ((25 : Int) : ℚ) = 77 := by
    unfold toF
    exact mathRound_eq _ 77 (by norm_num) (by norm_num)
  have hcity : trim "Rajpipla" ≠ "" := by decide
  refine ⟨rfl, ?_, rfl, rfl, ?_, ?_, rfl⟩
  · simp only [checkAuthStatus, displayWeatherInfo, freshClient, freshPage, rajpipla, h25]
    decide
  · simp only [toggleClick, checkAuthStatus, displayWeatherInfo, freshClient, freshPage,
      rajpipla, h25]
    decide
  · simp only [toggleClick, submitWeather, hcity, if_false, displayWeatherInfo, freshClient,
      freshPage, rajpipla, h25, h77]
    decide

/-- C7, on the code: the round trip fails where the on-load rendering lands
after a form submit. The reply for the submitted city (London, 10 degrees) is
rendered and remembered, then the reply for the default city (Rajpipla, 25
degrees) is rendered by `checkAuthStatus` without being remembered. The state
is in unit C with toggle text `°C` and shows Rajpipla; two clicks on the unit
toggle leave unit and toggle text as they were but replace every temperature
text by the one of London. -/
theorem toggle_twice_after_late_load_changes_display :
    (checkAuthStatus (fun _ => "") (some true) (.ok rajpipla) .notOk
        (submitWeather "London" (.ok london) freshClient)).dom.unit = "C" ∧
      (checkAuthStatus (fun _ => "") (some true) (.ok rajpipla) .notOk
        (submitWeather "London" (.ok london) freshClient)).dom.toggleLabel = "°C" ∧
      (checkAuthStatus (fun _ => "") (some true) (.ok rajpipla) .notOk
        (submitWeather "London" (.ok london) freshClient)).lastWeatherData = some london ∧
      (checkAuthStatus (fun _ => "") (some true) (.ok rajpipla) .notOk
        (submitWeather "London" (.ok london) freshClient)).dom.temperatures
        = ("25°C", some " 26°C", some " 24° / 27°C") ∧
      (toggleClick (toggleClick (checkAuthStatus (fun _ => "") (some true) (.ok rajpipla) .notOk
        (submitWeather "London" (.ok london) freshClient)))).dom.unit = "C" ∧
      (toggleClick (toggleClick (checkAuthStatus (fun _ => "") (some true) (.ok rajpipla) .notOk
        (submitWeather "London" (.ok london) freshClient)))).dom.toggleLabel = "°C" ∧
      (toggleClick (toggleClick (checkAuthStatus (fun _ => "") (some true) (.ok rajpipla) .notOk
        (submitWeather "London" (.ok london) freshClient)))).dom.temperatures
        = ("10°C", some " 9°C", some " 8° / 11°C") := by
  have h8 : mathRound (8 : ℚ) = 8 := mathRound_intCast 8
  have h9 : mathRound (9 : ℚ) = 9 := mathRound_intCast 9
  have h10 : mathRound (10 : ℚ) = 10 := mathRound_intCast 10
  have h11 : mathRound (11 : ℚ) = 11 := mathRound_intCast 11
  have h24 : mathRound (24 : ℚ) = 24 := mathRound_intCast 24
  have h25 : mathRound (25 : ℚ) = 25 := mathRound_intCast 25
  have h26 : mathRound (26 : ℚ) = 26 := mathRound_intCast 26
  have h27 : mathRound (27 : ℚ) = 27 := mathRound_intCast 27
  have hcity : trim "London" ≠ "" := by decide
  refine ⟨rfl, rfl, ?_, ?_, rfl, rfl, ?_⟩
  · simp only [checkAuthStatus, submitWeather, hcity, if_false]
  · simp only [checkAuthStatus, submitWeather, hcity, if_false, displayWeatherInfo,
      Dom.temperatures, freshClient, freshPage, rajpipla, Option.map_some', h24, h25, h26, h27]
    decide
  · simp only [toggleClick, checkAuthStatus, submitWeather, hcity, if_false, displayWeatherInfo,
      Dom.temperatures, freshClient, freshPage, london, Option.map_some', h8, h9, h10, h11]
    decide

/-! ## Error-handling middleware -/

/-- C11 as stated fails on the code: in production an error named `MongoError`
is answered 503, not 500, and an error named `AuthenticationError` is answered
401 with its own message in the body, so two such errors that differ only in
their message get different bodies. -/
theorem errorMiddleware_production_counterexample :
    (errorMiddleware ⟨none, none, some "production"⟩ ⟨"MongoError", "pool destroyed"⟩).status
        = 503 ∧
      errorMiddleware ⟨none, none, some "production"⟩
          ⟨"AuthenticationError", "token of ann@example.org expired"⟩
        = .json 401 (.obj [("error", .str "Authentication failed"),
            ("message", .str "token of ann@example.org expired")]) ∧
      errorMiddleware ⟨none, none, some "production"⟩ ⟨"AuthenticationError", "a"⟩
        ≠ errorMiddleware ⟨none, none, some "production"⟩ ⟨"AuthenticationError", "b"⟩ := by
  refine ⟨?_, ?_, ?_⟩
  · simp [errorMiddleware, Response.status]
  · simp [errorMiddleware, orElse]
  · simp [errorMiddleware, orElse]

/-- C11, amended: an error whose name is none of `MongooseError`, `MongoError`,
`AuthenticationError` is answered 500, with its own message in the body only
when `NODE_ENV` is `development`; in every other environment, production
included, the body is a fixed text that does not depend on the error. An error
named `MongooseError` or `MongoError` is answered 503 with a fixed body, and one
named `AuthenticationError` is answered 401 with its message (or a default when
it is empty) in every environment. -/
theorem errorMiddleware_responses (env : Env) (err : Err) :
    (err.name ≠ "MongooseError" → err.name ≠ "MongoError" →
      err.name ≠ "AuthenticationError" →
        (errorMiddleware env err).status = 500 ∧
        (env.NODE_ENV ≠ some "development" →
          errorMiddleware env err = .json 500 (.obj [("error", .str "Something went wrong"),
            ("message", .str "An unexpected error occurred")])) ∧
        (env.NODE_ENV = some "development" →
          errorMiddleware env err = .json 500 (.obj [("error", .str "Something went wrong"),
            ("message", .str err.message)]))) ∧
    (err.name = "MongooseError" ∨ err.name = "MongoError" →
      errorMiddleware env err = .json 503 (.obj [("error", .str "Database service unavailable"),
        ("message", .str "Please try again later")])) ∧
    (err.name = "AuthenticationError" →
      errorMiddleware env err = .json 401 (.obj [("error", .str "Authentication failed"),
        ("message", .str (orElse (some err.message) "Please try logging in again"))])) := by
  refine ⟨?_, ?_, ?_⟩
  · intro h1 h2 h3
    refine ⟨?_, ?_, ?_⟩
    · simp [errorMiddleware, h1, h2, h3, Response.status]
    · intro hdev
      simp [errorMiddleware, h1, h2, h3, hdev]
    · intro hdev
      simp [errorMiddleware, h1, h2, h3, hdev]
  · intro h
    simp [errorMiddleware, h]
  · intro h
    simp [errorMiddleware, h]

/-- Witness of C11 as amended: a `TypeError` in production is answered 500 with
the fixed body. -/
theorem errorMiddleware_responses_witness :
    (errorMiddleware ⟨none, none, some "production"⟩
        ⟨"TypeError", "Cannot read properties of undefined"⟩).status = 500 ∧
      errorMiddleware ⟨none, none, some "production"⟩
          ⟨"TypeError", "Cannot read properties of undefined"⟩
        = .json 500 (.obj [("error", .str "Something went wrong"),
            ("message", .str "An unexpected error occurred")]) :=
  ⟨((errorMiddleware_responses ⟨none, none, some "production"⟩
      ⟨"TypeError", "Cannot read properties of undefined"⟩).1
        (by decide) (by decide) (by decide)).1,
    ((errorMiddleware_responses ⟨none, none, some "production"⟩
      ⟨"TypeError", "Cannot read properties of undefined"⟩).1
        (by decide) (by decide) (by decide)).2.1 (by decide)⟩

/-! ## Celsius to Fahrenheit on integers -/

/-- In unit F the main temperature text is `toF` of the rounded, hence integer,
Celsius value. -/
theorem displayWeatherInfo_fahrenheit_text (data : WeatherData) (dom : Dom)
    (hunit : dom.unit = "F") :
    (displayWeatherInfo data dom).weatherTemp
      = toString (toF ((mathRound data.temp : ℤ) : ℚ)) ++ "°F" := by
  simp [displayWeatherInfo, hunit]

/-- On an integer Celsius value, ten times `toF` lies between `18 c + 316` and
`18 c + 324`. -/
theorem toF_intCast_bounds (c : ℤ) :
    18 * c + 316 ≤ 10 * toF (c : ℚ) ∧ 10 * toF (c : ℚ) ≤ 18 * c + 324 := by
  have hlo : ((toF (c : ℚ) : ℤ) : ℚ) ≤ (c : ℚ) * 9 / 5 + 32 + 1 / 2 := Int.floor_le _
  have hhi : (c : ℚ) * 9 / 5 + 32 + 1 / 2 < ((toF (c : ℚ) : ℤ) : ℚ) + 1 :=
    Int.lt_floor_add_one _
  have hlo10 : ((10 * toF (c : ℚ) : ℤ) : ℚ) ≤ ((18 * c + 325 : ℤ) : ℚ) := by
    push_cast; linarith
  have hhi10 : ((18 * c + 325 : ℤ) : ℚ) < ((10 * toF (c : ℚ) + 10 : ℤ) : ℚ) := by
    push_cast; linarith
  have h1 : 10 * toF (c : ℚ) ≤ 18 * c + 325 := by exact_mod_cast hlo10
  have h2 : 18 * c + 325 < 10 * toF (c : ℚ) + 10 := by exact_mod_cast hhi10
  constructor <;> omega

/-- C13: over exact rationals, for every integer Celsius value `c`, the exact
Fahrenheit value `9c/5 + 32` never has fractional part 1/2 (no rounding tie),
`toF c` is within 2/5 of it, every other integer is strictly farther from it
(so `toF c` is the unique nearest integer), and `toF` is strictly increasing on
the integers. -/
theorem toF_nearest_integer_strictly_increasing (c : ℤ) :
    Int.fract ((c : ℚ) * 9 / 5 + 32) ≠ 1 / 2 ∧
      |((toF (c : ℚ) : ℤ) : ℚ) - ((c : ℚ) * 9 / 5 + 32)| ≤ 2 / 5 ∧
      (∀ m : ℤ, m ≠ toF (c : ℚ) →
        |((toF (c : ℚ) : ℤ) : ℚ) - ((c : ℚ) * 9 / 5 + 32)|
          < |(m : ℚ) - ((c : ℚ) * 9 / 5 + 32)|) ∧
      (∀ d : ℤ, c < d → toF (c : ℚ) < toF (d : ℚ)) := by
  obtain ⟨hlo, hhi⟩ := toF_intCast_bounds c
  have hloq : ((18 * c + 316 : ℤ) : ℚ) ≤ ((10 * toF (c : ℚ) : ℤ) : ℚ) := by exact_mod_cast hlo
  have hhiq : ((10 * toF (c : ℚ) : ℤ) : ℚ) ≤ ((18 * c + 324 : ℤ) : ℚ) := by exact_mod_cast hhi
  push_cast at hloq hhiq
  have hnear : |((toF (c : ℚ) : ℤ) : ℚ) - ((c : ℚ) * 9 / 5 + 32)| ≤ 2 / 5 := by
    rw [abs_le]; constructor <;> linarith
  refine ⟨?_, hnear, ?_, ?_⟩
  · intro hfract
    have hk : (c : ℚ) * 9 / 5 + 32 - ((⌊(c : ℚ) * 9 / 5 + 32⌋ : ℤ) : ℚ) = 1 / 2 := hfract
    have hq : ((18 * c + 320 : ℤ) : ℚ) = ((10 * ⌊(c : ℚ) * 9 / 5 + 32⌋ + 5 : ℤ) : ℚ) := by
      push_cast; linarith
    have hz : 18 * c + 320 = 10 * ⌊(c : ℚ) * 9 / 5 + 32⌋ + 5 := by exact_mod_cast hq
    omega
  · intro m hm
    refine lt_of_le_of_lt hnear ?_
    rw [lt_abs]
    rcases lt_or_gt_of_ne hm with hlt | hgt
    · right
      have hm1 : m + 1 ≤ toF (c : ℚ) := hlt
      have hmq : ((m + 1 : ℤ) : ℚ) ≤ ((toF (c : ℚ) : ℤ) : ℚ) := by exact_mod_cast hm1
      push_cast at hmq
      linarith
    · left
      have hm1 : toF (c : ℚ) + 1 ≤ m := hgt
      have hmq : ((toF (c : ℚ) + 1 : ℤ) : ℚ) ≤ ((m : ℤ) : ℚ) := by exact_mod_cast hm1
      push_cast at hmq
      linarith
  · intro d hcd
    obtain ⟨hlod, -⟩ := toF_intCast_bounds d
    omega

/-- Witness of C13 at 25 and 26 degrees Celsius: 77 is nearer to 77 than 78 is,
and the Fahrenheit value of 25 is below that of 26. -/
theorem toF_nearest_integer_strictly_increasing_witness :
    |((toF ((25 : ℤ) : ℚ) : ℤ) : ℚ) - (((25 : ℤ) : ℚ) * 9 / 5 + 32)|
        < |((78 : ℤ) : ℚ) - (((25 : ℤ) : ℚ) * 9 / 5 + 32)| ∧
      toF ((25 : ℤ) : ℚ) < toF ((26 : ℤ) : ℚ) :=
  ⟨(toF_nearest_integer_strictly_increasing 25).2.2.1 78 (by
      have h := (toF_intCast_bounds 25).2
      intro h78
      rw [← h78] at h
      omega),
    (toF_nearest_integer_strictly_increasing 25).2.2.2 26 (by decide)⟩

/-! ## Route dispatch -/

/-- C12 as stated fails on the code: `OPTIONS /does-not-exist` matches no
registered route and no static file, yet it is answered 204 with an empty body
by the CORS middleware and never reaches the catch-all handler, authenticated
or not. -/
theorem options_unmatched_counterexample :
    (∀ r ∈ routes, r.takes .OPTIONS "/does-not-exist" = false) ∧
      serve ⟨none, none, none⟩ (fun _ => .error .network) (fun _ => false) some
          (fun _ => .redirect "/") .OPTIONS "/does-not-exist" false = .send 204 "" ∧
      serve ⟨none, none, none⟩ (fun _ => .error .network) (fun _ => false) some
          (fun _ => .redirect "/") .OPTIONS "/does-not-exist" true = .send 204 "" ∧
      (serve ⟨none, none, none⟩ (fun _ => .error .network) (fun _ => false) some
          (fun _ => .redirect "/") .OPTIONS "/does-not-exist" false).status ≠ 404 := by
  refine ⟨by decide, ?_, ?_, ?_⟩ <;> simp [serve, Response.status]

/-- C12, amended: every request whose method is not `OPTIONS` and whose method
and path match none of the registered routes and no static file is answered 404
with body `error: 'Not Found', message: 'The requested resource was not found'`,
whether or not it is authenticated. -/
theorem unmatched_request_not_found (env : Env) (upstream : Upstream)
    (isStaticFile : String → Bool) (decode : String → Option String)
    (authRoutes : RouteId → Response) (method : Method) (path : String) (authenticated : Bool)
    (hmethod : method ≠ .OPTIONS) (hstatic : isStaticFile path = false)
    (hroutes : ∀ r ∈ routes, r.takes method path = false) :
    serve env upstream isStaticFile decode authRoutes method path authenticated
      = .json 404 (.obj [("error", .str "Not Found"),
          ("message", .str "The requested resource was not found")]) := by
  have hfind : findRoute method path = none := by
    unfold findRoute
    rw [List.find?_eq_none]
    intro r hr
    simp [hroutes r hr]
  simp [serve, hstatic, hmethod, hfind, notFoundHandler]

/-- Witness of C12 as amended: `GET /does-not-exist`, unauthenticated and
authenticated. -/
theorem unmatched_request_not_found_witness :
    serve ⟨none, none, none⟩ (fun _ => .error .network) (fun _ => false) some
        (fun _ => .redirect "/") .GET "/does-not-exist" false
      = .json 404 (.obj [("error", .str "Not Found"),
          ("message", .str "The requested resource was not found")]) ∧
    serve ⟨none, none, none⟩ (fun _ => .error .network) (fun _ => false) some
        (fun _ => .redirect "/") .GET "/does-not-exist" true
      = .json 404 (.obj [("error", .str "Not Found"),
          ("message", .str "The requested resource was not found")]) :=
  ⟨unmatched_request_not_found ⟨none, none, none⟩ (fun _ => .error .network) (fun _ => false)
      some (fun _ => .redirect "/") .GET "/does-not-exist" false (by decide) rfl (by decide),
    unmatched_request_not_found ⟨none, none, none⟩ (fun _ => .error .network) (fun _ => false)
      some (fun _ => .redirect "/") .GET "/does-not-exist" true (by decide) rfl (by decide)⟩

/-- Every `OPTIONS` request is answered 204 with an empty body by the CORS
middleware, whatever the path and whether or not it is authenticated. -/
theorem serve_options (env : Env) (upstream : Upstream) (isStaticFile : String → Bool)
    (decode : String → Option String) (authRoutes : RouteId → Response) (path : String)
    (authenticated : Bool) :
    serve env upstream isStaticFile decode authRoutes .OPTIONS path authenticated
      = .send 204 "" := by
  simp [serve]

/-- A matched route is not answered by the catch-all handler: `GET /healthz`
is answered 200, and `GET /api/weather/London` without authentication 401. -/
theorem serve_matched_examples :
    serve ⟨none, none, none⟩ (fun _ => .error .network) (fun _ => false) some
        (fun _ => .redirect "/") .GET "/healthz" false = .json 200 (.obj [("status", .str "ok")]) ∧
    serve ⟨none, none, none⟩ (fun _ => .error .network) (fun _ => false) some
        (fun _ => .redirect "/") .GET "/api/weather/London" false
      = .json 401 (.obj [("error", .str "Not authenticated")]) := by
  have h1 : findRoute .GET "/healthz" = some ⟨.healthz, .GET, [.literal "healthz"]⟩ := by decide
  have h2 : findRoute .GET "/api/weather/London"
      = some ⟨.apiWeather, .GET, [.literal "api", .literal "weather", .param "city"]⟩ := by
    decide
  have h3 : matchPath [.literal "api", .literal "weather", .param "city"] "/api/weather/London"
      = some ["London"] := by decide
  constructor
  · simp [serve, h1, healthzHandler]
  · simp [serve, h2, h3, apiRoute, apiWeather, guarded, isAuthenticated, errorBody]

end Newsphere
